import Mathlib

/-!
Shallow embedding of the MCP tool server in `src/src/index.ts` (three tools:
`list_open_issues`, `get_issue_details`, `get_resource_plan`).

Modelling conventions:
* Each `fetch` is answered by an oracle value of type `FetchResult β`: either a
  transport fault (the promise rejects, carrying the error message) or an HTTP
  response with a numeric status and a parsed body of type `β` (parsed bodies are
  modelled by the projection of fields the handler consumes; the TypeScript casts
  perform no validation).
* `response.ok` is status in [200, 300).
* A handler finishes either by returning a result envelope or by throwing; the
  envelope's absent `isError` field is modelled as `false`.
* JavaScript numeric plan fields are modelled as `Option Int` (absent field ->
  `none`); `x || 0` coincides with `Option.getD 0` on these values.
* `process.env` variables are `Option String`; JavaScript template interpolation
  renders an undefined variable as the string "undefined", and the credential
  check `!FM_USER || !FM_PASS` is falsiness: undefined or empty string.
* The list of outbound requests each run issues is returned alongside the
  outcome, in issue order.
-/

namespace MCPServer

/-- Result envelope: one text block plus the `isError` flag (absent modelled as `false`). -/
structure Envelope where
  isError : Bool
  text : String
deriving DecidableEq, Repr

/-- Outcome of awaiting one `fetch`: transport fault (rejected promise, with the
error's message) or an HTTP response with status code and consumed body projection. -/
inductive FetchResult (β : Type) where
  | fault (msg : String)
  | resp (status : Nat) (body : β)
deriving DecidableEq, Repr

/-- `Response.ok`: status in the inclusive range 200-299. -/
def respOk (s : Nat) : Bool := decide (200 ≤ s ∧ s < 300)

/-- `FetchResult` that is an HTTP response (no transport fault). -/
def FetchResult.isResp {β : Type} : FetchResult β → Bool
  | .fault _ => false
  | .resp _ _ => true

/-- Statuses received from one fetch slot: none on a fault, the one status on a response. -/
def FetchResult.statuses {β : Type} : FetchResult β → List Nat
  | .fault _ => []
  | .resp s _ => [s]

/-- How a tool handler finishes: resolves with an envelope, or throws/rejects with a message. -/
inductive HandlerOutcome where
  | ret (env : Envelope)
  | thrown (msg : String)
deriving DecidableEq, Repr

/-- whether the handler threw instead of resolving with an envelope. -/
def HandlerOutcome.isThrown : HandlerOutcome → Bool
  | .ret _ => false
  | .thrown _ => true

/-- Consumed projection of the `GitHubIssue` interface:
`{number, title, user.login, html_url, body: string | null}`. -/
structure GitHubIssue where
  number : Int
  title : String
  userLogin : String
  htmlUrl : String
  body : Option String
deriving DecidableEq, Repr

/-- One outbound request, in the order issued. -/
inductive Req where
  | ghList (url : String)
  | ghIssue (url : String)
  | fmLogin (url : String)
  | fmFind (url : String)
  | fmLogout (url : String)
deriving DecidableEq, Repr

/-- whether a request is the FileMaker session-revoke (logout) DELETE. -/
def Req.isLogout : Req → Bool
  | .fmLogout _ => true
  | _ => false

/-- `https://api.github.com/repos/${owner}/${repo}/issues?state=open` -/
def listUrl (owner repo : String) : String :=
  "https://api.github.com/repos/" ++ owner ++ "/" ++ repo ++ "/issues?state=open"

/-- Line format of the issue list: `#${number}: ${title} (by ${user.login})`. -/
def fmtIssueLine (i : GitHubIssue) : String :=
  "#" ++ toString i.number ++ ": " ++ i.title ++ " (by " ++ i.userLogin ++ ")"

/-- Success text of `list_open_issues` on a non-empty issue array: header with the
true total count, then the first five issues formatted one per line. -/
def listText (owner repo : String) (issues : List GitHubIssue) : String :=
  "Found " ++ toString issues.length ++ " open issues for " ++ owner ++ "/" ++ repo ++
    ". Show the first 5:\n\n" ++ String.intercalate "\n" ((issues.take 5).map fmtIssueLine)

/-- The `list_open_issues` handler: one GET against the list endpoint; non-2xx
throws `API request failed with status N` which the catch turns into an error
envelope (with the source's `Faield` typo); empty array is a success with an
explicit no-results message; otherwise the formatted truncated listing. -/
def list_open_issues (owner repo : String) (r : FetchResult (List GitHubIssue)) :
    HandlerOutcome × List Req :=
  let reqs : List Req := [.ghList (listUrl owner repo)]
  match r with
  | .fault m =>
      (.ret ⟨true, "Faield to fetch issues for " ++ owner ++ "/" ++ repo ++ ". Reason: " ++ m⟩,
        reqs)
  | .resp s issues =>
      if respOk s then
        if issues.length = 0 then
          (.ret ⟨false, "No open issues found for " ++ owner ++ "/" ++ repo ++ "."⟩, reqs)
        else
          (.ret ⟨false, listText owner repo issues⟩, reqs)
      else
        (.ret ⟨true, "Faield to fetch issues for " ++ owner ++ "/" ++ repo ++
          ". Reason: " ++ ("API request failed with status " ++ toString s)⟩, reqs)

/-- `https://api.github.com/repos/${owner}/${repo}/issues/${issue_number}` -/
def issueUrl (owner repo : String) (issue_number : Int) : String :=
  "https://api.github.com/repos/" ++ owner ++ "/" ++ repo ++ "/issues/" ++ toString issue_number

/-- `issue.body || 'No body content.'`: null or empty body yields the placeholder. -/
def bodyOrPlaceholder : Option String → String
  | none => "No body content."
  | some s => if s.isEmpty then "No body content." else s

/-- Detail format: `#${number}: ${title} (by ${user.login})\n\n---\n\n${body || placeholder}`. -/
def detailText (i : GitHubIssue) : String :=
  "#" ++ toString i.number ++ ": " ++ i.title ++ " (by " ++ i.userLogin ++ ")\n\n---\n\n" ++
    bodyOrPlaceholder i.body

/-- The `get_issue_details` handler: one GET against the single-issue endpoint;
non-2xx throws and the catch returns an error envelope carrying the status. -/
def get_issue_details (owner repo : String) (issue_number : Int) (r : FetchResult GitHubIssue) :
    HandlerOutcome × List Req :=
  let reqs : List Req := [.ghIssue (issueUrl owner repo issue_number)]
  match r with
  | .fault m =>
      (.ret ⟨true, "Failed to fetch issue detail for issue #" ++ toString issue_number ++
        ". Reason: " ++ m⟩, reqs)
  | .resp s issue =>
      if respOk s then
        (.ret ⟨false, detailText issue⟩, reqs)
      else
        (.ret ⟨true, "Failed to fetch issue detail for issue #" ++ toString issue_number ++
          ". Reason: " ++ ("API request failed with status " ++ toString s)⟩, reqs)

/-- FileMaker backend coordinates read from `process.env` (each possibly undefined). -/
structure FMConfig where
  host : Option String
  db : Option String
  user : Option String
  pass : Option String
  layout : Option String
deriving DecidableEq, Repr

/-- JavaScript template interpolation of a possibly-undefined variable. -/
def tmpl : Option String → String
  | none => "undefined"
  | some s => s

/-- JavaScript falsiness of `process.env.X` (string or undefined): undefined or empty. -/
def falsyEnv : Option String → Bool
  | none => true
  | some s => s.isEmpty

/-- `https://${FM_HOST}/fmi/data/vLatest/databases/${FM_DB}/sessions` -/
def apiLogInUrl (cfg : FMConfig) : String :=
  "https://" ++ tmpl cfg.host ++ "/fmi/data/vLatest/databases/" ++ tmpl cfg.db ++ "/sessions"

/-- `https://${FM_HOST}/fmi/data/vLatest/databases/${FM_DB}/layouts/${FM_LAYOUT}/_find` -/
def apiPerformFindUrl (cfg : FMConfig) : String :=
  "https://" ++ tmpl cfg.host ++ "/fmi/data/vLatest/databases/" ++ tmpl cfg.db ++
    "/layouts/" ++ tmpl cfg.layout ++ "/_find"

/-- Consumed projection of one record's `fieldData`: the three numeric hour fields,
each possibly absent. -/
structure PlanFieldData where
  hoursPlanned : Option Int
  hoursActual : Option Int
  hoursRemaining : Option Int
deriving DecidableEq, Repr

/-- `x || 0` on a possibly-absent numeric field. -/
def numOrZero : Option Int → Int
  | none => 0
  | some v => v

/-- Oracle answering the three FileMaker fetches of one `get_resource_plan` run.
`findR`'s body is `response.data`, which the handler checks for being absent
(`!records`) before checking emptiness. -/
structure FMEnv where
  loginR : FetchResult String
  findR : FetchResult (Option (List PlanFieldData))
  logoutR : FetchResult Unit
deriving DecidableEq, Repr

/-- Per-record block: `Planned: ${p}\nActual: ${a}\nRemaining: ${r}` with `|| 0` defaults. -/
def planLine (r : PlanFieldData) : String :=
  "Planned: " ++ toString (numOrZero r.hoursPlanned) ++ "\nActual: " ++
    toString (numOrZero r.hoursActual) ++ "\nRemaining: " ++ toString (numOrZero r.hoursRemaining)

/-- Success text of `get_resource_plan`: echoes the session token, then the
formatted plan records joined by newlines. -/
def planSuccessText (tok user_name date_range : String) (records : List PlanFieldData) : String :=
  "Successfully logged into FileMaker! Session Token: " ++ tok ++
    ("\n\nResource plan for " ++ user_name ++ " for " ++ date_range ++ ":\n\n" ++
      String.intercalate "\n" (records.map planLine))

/-- `No resource plan found for ${user_name} for ${date_range}` -/
def noPlanText (user_name date_range : String) : String :=
  "No resource plan found for " ++ user_name ++ " for " ++ date_range

/-- The try/catch part of the `get_resource_plan` handler (everything before the
finally block): returns the envelope the catch-completed body produced, the
requests issued so far, and the value of `sessionToken` (none until the login
response is parsed). -/
def planTry (cfg : FMConfig) (env : FMEnv) (user_name date_range : String) :
    Envelope × List Req × Option String :=
  if falsyEnv cfg.user || falsyEnv cfg.pass then
    (⟨true, "Error: " ++ "FileMakaer username or password not set in the .env file."⟩, [], none)
  else
    match env.loginR with
    | .fault m => (⟨true, "Error: " ++ m⟩, [.fmLogin (apiLogInUrl cfg)], none)
    | .resp s tok =>
      if respOk s then
        match env.findR with
        | .fault m =>
            (⟨true, "Error: " ++ m⟩,
              [.fmLogin (apiLogInUrl cfg), .fmFind (apiPerformFindUrl cfg)], some tok)
        | .resp s2 data =>
          if respOk s2 then
            match data with
            | none =>
                (⟨false, noPlanText user_name date_range⟩,
                  [.fmLogin (apiLogInUrl cfg), .fmFind (apiPerformFindUrl cfg)], some tok)
            | some [] =>
                (⟨false, noPlanText user_name date_range⟩,
                  [.fmLogin (apiLogInUrl cfg), .fmFind (apiPerformFindUrl cfg)], some tok)
            | some records =>
                (⟨false, planSuccessText tok user_name date_range records⟩,
                  [.fmLogin (apiLogInUrl cfg), .fmFind (apiPerformFindUrl cfg)], some tok)
          else
            (⟨true, "Error: " ++ ("FileMaker perform find failed with status " ++ toString s2)⟩,
              [.fmLogin (apiLogInUrl cfg), .fmFind (apiPerformFindUrl cfg)], some tok)
      else
        (⟨true, "Error: " ++ ("FileMaker login failed with status " ++ toString s)⟩,
          [.fmLogin (apiLogInUrl cfg)], none)

/-- URL of the finally block's logout DELETE: `${apiLogInUrl}/${sessionToken}`,
where a still-null token interpolates as the literal string "null". -/
def logoutUrl (cfg : FMConfig) (tok : Option String) : String :=
  apiLogInUrl cfg ++ "/" ++ (match tok with | none => "null" | some t => t)

/-- The full `get_resource_plan` handler: try/catch body, then the finally block,
which unconditionally issues the logout DELETE; a transport fault there rejects
the handler, a non-2xx logout status throws `FileMaker logout failed with status N`
(replacing whatever the body returned), and only a 2xx logout lets the body's
envelope through. -/
def get_resource_plan (cfg : FMConfig) (env : FMEnv) (user_name date_range : String) :
    HandlerOutcome × List Req :=
  match planTry cfg env user_name date_range with
  | (envl, reqs, tok) =>
    let reqs2 := reqs ++ [.fmLogout (logoutUrl cfg tok)]
    match env.logoutR with
    | .fault m => (.thrown m, reqs2)
    | .resp s _ =>
      if respOk s then (.ret envl, reqs2)
      else (.thrown ("FileMaker logout failed with status " ++ toString s), reqs2)

/-- Modelled from the spec: the Tool Registry / Dispatcher (spec sections 4.5 and 7)
is the MCP SDK dependency, not code under src. Per the spec's propagation policy,
the caller of dispatch always receives a ResultEnvelope: a handler that resolves
passes its envelope through, and a handler exception/rejection is converted at the
protocol boundary into a Failure envelope carrying the error's message. -/
def dispatchEnvelope : HandlerOutcome → Envelope
  | .ret e => e
  | .thrown m => ⟨true, m⟩

/-- A tool invocation together with the oracle answering its outbound fetches. -/
inductive Invocation where
  | list (owner repo : String) (r : FetchResult (List GitHubIssue))
  | details (owner repo : String) (issue_number : Int) (r : FetchResult GitHubIssue)
  | plan (cfg : FMConfig) (env : FMEnv) (user_name date_range : String)

/-- Run the invoked tool's handler. -/
def runTool : Invocation → HandlerOutcome × List Req
  | .list owner repo r => list_open_issues owner repo r
  | .details owner repo n r => get_issue_details owner repo n r
  | .plan cfg env u d => get_resource_plan cfg env u d

/-- Statuses of the HTTP responses a `get_resource_plan` run receives, in order:
login (if issued and answered), find (if issued and answered), then the
unconditional logout (if answered). -/
def planStatuses (cfg : FMConfig) (env : FMEnv) : List Nat :=
  (if falsyEnv cfg.user || falsyEnv cfg.pass then []
   else
     match env.loginR with
     | .fault _ => []
     | .resp s _ =>
       if respOk s then s :: env.findR.statuses else [s]) ++ env.logoutR.statuses

/-- Statuses of the HTTP responses an invocation receives, in issue order. -/
def invStatuses : Invocation → List Nat
  | .list _ _ r => r.statuses
  | .details _ _ _ r => r.statuses
  | .plan cfg env _ _ => planStatuses cfg env

/-- whether the oracle answers every fetch with an HTTP response (no transport faults). -/
def invNoFaults : Invocation → Bool
  | .list _ _ r => r.isResp
  | .details _ _ _ r => r.isResp
  | .plan _ env _ _ => env.loginR.isResp && env.findR.isResp && env.logoutR.isResp

/-- The last non-2xx status an invocation received, if any. -/
def lastNonOk (inv : Invocation) : Option Nat :=
  ((invStatuses inv).filter (fun s => !respOk s)).getLast?

/-- The finally block's logout fetch failed: it was answered with a transport
fault or with a non-2xx status. -/
def logoutFailed (env : FMEnv) : Prop :=
  match env.logoutR with
  | .fault _ => True
  | .resp s _ => respOk s = false

/-- substring containment, as infixity of the underlying character lists. -/
def strContains (hay needle : String) : Prop := needle.data <:+: hay.data

/-- Concrete six-issue upstream array used to instantiate the truncation theorem. -/
def c7Issues : List GitHubIssue :=
  [⟨1, "Issue one", "ann", "u1", none⟩, ⟨2, "Issue two", "ben", "u2", some "b"⟩,
   ⟨3, "Issue three", "cam", "u3", none⟩, ⟨4, "Issue four", "dee", "u4", none⟩,
   ⟨5, "Issue five", "eve", "u5", none⟩, ⟨6, "Issue six", "fox", "u6", none⟩]

/-- `strContains` is decidable (list infixity over characters is decidable). -/
instance (hay needle : String) : Decidable (strContains hay needle) := by
  unfold strContains
  infer_instance

theorem strContains_append_right (a b : String) : strContains (a ++ b) b :=
  ⟨a.data, [], by simp [String.data_append]⟩

theorem strContains_append_left (a : String) {b n : String} (h : strContains b n) :
    strContains (a ++ b) n := by
  obtain ⟨s, t, hst⟩ := h
  exact ⟨a.data ++ s, t, by simp [String.data_append, ← hst]⟩

/-- Associativity of string concatenation, via the underlying lists. -/
theorem strAppendAssoc (a b c : String) : (a ++ b) ++ c = a ++ (b ++ c) :=
  congrArg String.mk (List.append_assoc a.data b.data c.data)

/-- The try/catch phase never issues a logout request: the only DELETE lives in
the finally block. -/
theorem planTry_no_logout (cfg : FMConfig) (env : FMEnv) (u d : String) :
    (planTry cfg env u d).2.1.filter Req.isLogout = [] := by
  unfold planTry
  repeat' split
  all_goals rfl

/-- Every `get_resource_plan` run — whatever the oracle answers — issues exactly
one logout request, and it is the last request of the run. -/
theorem get_resource_plan_logout_count (cfg : FMConfig) (env : FMEnv) (u d : String) :
    ((get_resource_plan cfg env u d).2.filter Req.isLogout).length = 1 := by
  have hfil := planTry_no_logout cfg env u d
  rcases hpt : planTry cfg env u d with ⟨e, r, t⟩
  rw [hpt] at hfil
  simp only at hfil
  rcases hl : env.logoutR with m | ⟨s, b⟩
  · simp [get_resource_plan, hpt, hl, List.filter_append, hfil, Req.isLogout]
  · rcases hs : respOk s <;>
      simp [get_resource_plan, hpt, hl, hs, List.filter_append, hfil, Req.isLogout]

/-- When the logout DELETE is answered with a non-2xx status, the finally block's
throw replaces whatever the body produced, and the dispatched envelope is the
logout failure. -/
theorem plan_logout_bad_dispatch (cfg : FMConfig) (env : FMEnv) (u d : String)
    (os : Nat) (b : Unit) (hl : env.logoutR = .resp os b) (hbad : respOk os = false) :
    dispatchEnvelope (get_resource_plan cfg env u d).1 =
      ⟨true, "FileMaker logout failed with status " ++ toString os⟩ := by
  rcases hpt : planTry cfg env u d with ⟨e, r, t⟩
  simp [get_resource_plan, hpt, hl, hbad, dispatchEnvelope]

/-- When the logout DELETE is answered 2xx, the finally block is silent and the
dispatched envelope is exactly what the try/catch body produced. -/
theorem plan_logout_ok_dispatch (cfg : FMConfig) (env : FMEnv) (u d : String)
    (os : Nat) (b : Unit) (hl : env.logoutR = .resp os b) (hok : respOk os = true) :
    dispatchEnvelope (get_resource_plan cfg env u d).1 = (planTry cfg env u d).1 := by
  rcases hpt : planTry cfg env u d with ⟨e, r, t⟩
  simp [get_resource_plan, hpt, hl, hok, dispatchEnvelope]

/-- Envelope of the try/catch body when credentials are configured but the login
is answered with a non-2xx status. -/
theorem planTry_login_bad (cfg : FMConfig) (env : FMEnv) (u d : String)
    (ls : Nat) (tok : String)
    (hcreds : (falsyEnv cfg.user || falsyEnv cfg.pass) = false)
    (hlogin : env.loginR = .resp ls tok) (hbad : respOk ls = false) :
    (planTry cfg env u d).1 =
      ⟨true, "Error: " ++ ("FileMaker login failed with status " ++ toString ls)⟩ := by
  simp [planTry, hcreds, hlogin, hbad]

/-- Envelope of the try/catch body when login succeeded but the find is answered
with a non-2xx status. -/
theorem planTry_find_bad (cfg : FMConfig) (env : FMEnv) (u d : String)
    (ls fs : Nat) (tok : String) (data : Option (List PlanFieldData))
    (hcreds : (falsyEnv cfg.user || falsyEnv cfg.pass) = false)
    (hlogin : env.loginR = .resp ls tok) (hlok : respOk ls = true)
    (hfind : env.findR = .resp fs data) (hbad : respOk fs = false) :
    (planTry cfg env u d).1 =
      ⟨true, "Error: " ++ ("FileMaker perform find failed with status " ++ toString fs)⟩ := by
  simp [planTry, hcreds, hlogin, hlok, hfind, hbad]

/-- C1: for every `get_resource_plan` invocation in which the login request
succeeded, exactly one logout (session-revoke) request is issued before the
invocation returns, whatever the find request's outcome (success, zero records,
non-2xx status or transport fault) and whatever the logout's own outcome. -/
theorem C1_login_ok_exactly_one_logout (cfg : FMConfig) (env : FMEnv)
    (user_name date_range : String) (s : Nat) (tok : String)
    (_hcreds : (falsyEnv cfg.user || falsyEnv cfg.pass) = false)
    (_hlogin : env.loginR = .resp s tok) (_hok : respOk s = true) :
    ((get_resource_plan cfg env user_name date_range).2.filter Req.isLogout).length = 1 :=
  get_resource_plan_logout_count cfg env user_name date_range

/-- C1 witness: a concrete run with a successful login and a successful find. -/
theorem C1_login_ok_exactly_one_logout_witness :
    (falsyEnv (FMConfig.mk (some "fm.example.com") (some "planDB") (some "admin") (some "secret")
        (some "plan")).user ||
      falsyEnv (FMConfig.mk (some "fm.example.com") (some "planDB") (some "admin") (some "secret")
        (some "plan")).pass) = false ∧
    (FMEnv.mk (.resp 200 "tok123") (.resp 200 (some [])) (.resp 200 ())).loginR =
      .resp 200 "tok123" ∧
    respOk 200 = true ∧
    ((get_resource_plan
        (FMConfig.mk (some "fm.example.com") (some "planDB") (some "admin") (some "secret")
          (some "plan"))
        (FMEnv.mk (.resp 200 "tok123") (.resp 200 (some [])) (.resp 200 ()))
        "alice" "this week").2.filter Req.isLogout).length = 1 :=
  ⟨by decide, rfl, by decide,
    C1_login_ok_exactly_one_logout
      (FMConfig.mk (some "fm.example.com") (some "planDB") (some "admin") (some "secret")
        (some "plan"))
      (FMEnv.mk (.resp 200 "tok123") (.resp 200 (some [])) (.resp 200 ()))
      "alice" "this week" 200 "tok123" (by decide) rfl (by decide)⟩

/-- C3: behaviour of the code at the claim's failing input. With credentials
configured and the login answered 401, the claim says the single login attempt is
the only outbound call; the code's finally block nevertheless issues a logout
DELETE to the sessions URL with the literal "null" token. -/
theorem C3_login_failed_logout_still_issued :
    (get_resource_plan
        (FMConfig.mk (some "fm.example.com") (some "planDB") (some "admin") (some "secret")
          (some "plan"))
        (FMEnv.mk (.resp 401 "") (.resp 200 none) (.resp 200 ()))
        "alice" "this week").2 =
      [Req.fmLogin "https://fm.example.com/fmi/data/vLatest/databases/planDB/sessions",
       Req.fmLogout "https://fm.example.com/fmi/data/vLatest/databases/planDB/sessions/null"] := by
  decide

/-- C4: behaviour of the code at the claim's failing input. With `FM_USER` unset,
the claim says the invocation fails with a configuration error and no outbound
request of any kind is made; the code's finally block nevertheless issues a
logout DELETE (an outbound network request) to the null-token sessions URL. -/
theorem C4_missing_creds_logout_still_issued :
    (get_resource_plan
        (FMConfig.mk (some "fm.example.com") (some "planDB") none (some "secret") (some "plan"))
        (FMEnv.mk (.resp 200 "tok") (.resp 200 none) (.resp 200 ()))
        "alice" "this week").2 =
      [Req.fmLogout "https://fm.example.com/fmi/data/vLatest/databases/planDB/sessions/null"] := by
  decide

/-- C2: when credentials are configured, login succeeds, the find request
succeeds (whatever the record set), and the logout DELETE is answered with a
non-2xx status, the envelope delivered to the caller is a Failure with
isError = true, carrying the logout failure — the release failure overrides the
successful find outcome. -/
theorem C2_release_failure_overrides (cfg : FMConfig) (env : FMEnv) (u d : String)
    (ls fs os : Nat) (tok : String) (data : Option (List PlanFieldData)) (b : Unit)
    (_hcreds : (falsyEnv cfg.user || falsyEnv cfg.pass) = false)
    (_hlogin : env.loginR = .resp ls tok) (_hlok : respOk ls = true)
    (_hfind : env.findR = .resp fs data) (_hfok : respOk fs = true)
    (hlogout : env.logoutR = .resp os b) (hbad : respOk os = false) :
    (dispatchEnvelope (get_resource_plan cfg env u d).1).isError = true ∧
      dispatchEnvelope (get_resource_plan cfg env u d).1 =
        ⟨true, "FileMaker logout failed with status " ++ toString os⟩ := by
  have h := plan_logout_bad_dispatch cfg env u d os b hlogout hbad
  exact ⟨by rw [h], h⟩

/-- C2 witness: a concrete run in which the find succeeds with one record and the
logout is answered 500. -/
theorem C2_release_failure_overrides_witness :
    (falsyEnv (some "admin") || falsyEnv (some "secret")) = false ∧
    respOk 200 = true ∧
    respOk 500 = false ∧
    ((dispatchEnvelope
        (get_resource_plan
          (FMConfig.mk (some "fm.example.com") (some "planDB") (some "admin") (some "secret")
            (some "plan"))
          (FMEnv.mk (.resp 200 "tokC2") (.resp 200 (some [PlanFieldData.mk (some 8) (some 5) none]))
            (.resp 500 ()))
          "erin" "this week").1).isError = true ∧
      dispatchEnvelope
        (get_resource_plan
          (FMConfig.mk (some "fm.example.com") (some "planDB") (some "admin") (some "secret")
            (some "plan"))
          (FMEnv.mk (.resp 200 "tokC2") (.resp 200 (some [PlanFieldData.mk (some 8) (some 5) none]))
            (.resp 500 ()))
          "erin" "this week").1 =
        ⟨true, "FileMaker logout failed with status " ++ toString 500⟩) :=
  ⟨by decide, by decide, by decide,
    C2_release_failure_overrides
      (FMConfig.mk (some "fm.example.com") (some "planDB") (some "admin") (some "secret")
        (some "plan"))
      (FMEnv.mk (.resp 200 "tokC2") (.resp 200 (some [PlanFieldData.mk (some 8) (some 5) none]))
        (.resp 500 ()))
      "erin" "this week" 200 200 500 "tokC2" (some [PlanFieldData.mk (some 8) (some 5) none]) ()
      (by decide) rfl (by decide) rfl (by decide) rfl (by decide)⟩

/-- An outcome that did not throw is a returned envelope. -/
theorem exists_ret_of_not_thrown (h : HandlerOutcome) (hh : h.isThrown = false) :
    ∃ e, h = .ret e := by
  cases h with
  | ret e => exact ⟨e, rfl⟩
  | thrown m => simp [HandlerOutcome.isThrown] at hh

/-- `list_open_issues` never throws: every path of its try/catch returns an envelope. -/
theorem list_never_throws (owner repo : String) (r : FetchResult (List GitHubIssue)) :
    ((list_open_issues owner repo r).1).isThrown = false := by
  unfold list_open_issues
  rcases r with m | ⟨s, issues⟩
  · rfl
  · repeat' split
    all_goals rfl

/-- `get_issue_details` never throws: every path of its try/catch returns an envelope. -/
theorem details_never_throws (owner repo : String) (n : Int) (r : FetchResult GitHubIssue) :
    ((get_issue_details owner repo n r).1).isThrown = false := by
  unfold get_issue_details
  rcases r with m | ⟨s, issue⟩
  · rfl
  · repeat' split
    all_goals rfl

/-- When the logout DELETE is answered 2xx, `get_resource_plan` resolves with the
try/catch body's envelope. -/
theorem plan_ret_of_logout_ok (cfg : FMConfig) (env : FMEnv) (u d : String)
    (os : Nat) (b : Unit) (hl : env.logoutR = .resp os b) (hok : respOk os = true) :
    (get_resource_plan cfg env u d).1 = .ret (planTry cfg env u d).1 := by
  rcases hpt : planTry cfg env u d with ⟨e, r, t⟩
  simp [get_resource_plan, hpt, hl, hok]

/-- C5 counterexample: a concrete `get_resource_plan` invocation (login 2xx, find
2xx with one record, logout answered 500) in which the handler does not resolve to
a ResultEnvelope: the finally block's throw makes it reject. -/
theorem C5_counterexample_handler_throws :
    ((get_resource_plan
        (FMConfig.mk (some "fm.example.com") (some "planDB") (some "admin") (some "secret")
          (some "plan"))
        (FMEnv.mk (.resp 200 "tokA")
          (.resp 200 (some [PlanFieldData.mk (some 8) (some 5) (some 3)]))
          (.resp 500 ()))
        "bob" "next week").1).isThrown = true := by
  decide

/-- C5 amended: every tool handler invocation resolves to a ResultEnvelope,
except a `get_resource_plan` invocation whose logout fetch fails (transport fault
or non-2xx), in which case the handler rejects and the envelope is produced only
by the dispatch layer's conversion. -/
theorem C5_amended_handler_resolves_unless_logout_fails (inv : Invocation) :
    (∃ e, (runTool inv).1 = .ret e) ∨
      (∃ cfg env u d, inv = .plan cfg env u d ∧ logoutFailed env) := by
  cases inv with
  | list owner repo r =>
    exact Or.inl (exists_ret_of_not_thrown _ (list_never_throws owner repo r))
  | details owner repo n r =>
    exact Or.inl (exists_ret_of_not_thrown _ (details_never_throws owner repo n r))
  | plan cfg env u d =>
    rcases hl : env.logoutR with m | ⟨os, b⟩
    · exact Or.inr ⟨cfg, env, u, d, rfl, by simp [logoutFailed, hl]⟩
    · cases hok : respOk os with
      | false => exact Or.inr ⟨cfg, env, u, d, rfl, by simp [logoutFailed, hl, hok]⟩
      | true =>
        exact Or.inl ⟨(planTry cfg env u d).1, plan_ret_of_logout_ok cfg env u d os b hl hok⟩

/-- C6 counterexample: a `get_resource_plan` invocation receives a non-2xx find
response (500), but the delivered message does not contain 500 — the later logout
failure (401) replaces it. -/
theorem C6_counterexample_masked_status :
    let inv := Invocation.plan
      (FMConfig.mk (some "fm.example.com") (some "planDB") (some "admin") (some "secret")
        (some "plan"))
      (FMEnv.mk (.resp 200 "tokB") (.resp 500 none) (.resp 401 ()))
      "carol" "this week"
    500 ∈ invStatuses inv ∧ respOk 500 = false ∧
      (dispatchEnvelope (runTool inv).1).isError = true ∧
      ¬ strContains (dispatchEnvelope (runTool inv).1).text "500" := by
  decide

/-- C6 amended: in every invocation in which each issued fetch is answered by an
HTTP response (no transport fault) and at least one response is non-2xx, the
delivered envelope has isError = true and its message contains the numeric status
of the last non-2xx response received; for `get_resource_plan` a non-2xx logout
therefore replaces an earlier failing status in the message. -/
theorem C6_amended_last_failing_status_in_message (inv : Invocation) (s : Nat)
    (hnf : invNoFaults inv = true) (hlast : lastNonOk inv = some s) :
    (dispatchEnvelope (runTool inv).1).isError = true ∧
      strContains (dispatchEnvelope (runTool inv).1).text (toString s) := by
  cases inv with
  | list owner repo r =>
    rcases r with m | ⟨st, issues⟩
    · simp [invNoFaults, FetchResult.isResp] at hnf
    · cases hok : respOk st with
      | true =>
        simp [lastNonOk, invStatuses, FetchResult.statuses, List.filter, hok] at hlast
      | false =>
        have hs : st = s := by
          simpa [lastNonOk, invStatuses, FetchResult.statuses, List.filter, hok] using hlast
        subst hs
        refine ⟨?_, ?_⟩
        · simp [runTool, list_open_issues, hok, dispatchEnvelope]
        · simp only [runTool, list_open_issues, hok, Bool.false_eq_true, if_false,
            dispatchEnvelope]
          exact strContains_append_left _ (strContains_append_right _ _)
  | details owner repo n r =>
    rcases r with m | ⟨st, issue⟩
    · simp [invNoFaults, FetchResult.isResp] at hnf
    · cases hok : respOk st with
      | true =>
        simp [lastNonOk, invStatuses, FetchResult.statuses, List.filter, hok] at hlast
      | false =>
        have hs : st = s := by
          simpa [lastNonOk, invStatuses, FetchResult.statuses, List.filter, hok] using hlast
        subst hs
        refine ⟨?_, ?_⟩
        · simp [runTool, get_issue_details, hok, dispatchEnvelope]
        · simp only [runTool, get_issue_details, hok, Bool.false_eq_true, if_false,
            dispatchEnvelope]
          exact strContains_append_left _ (strContains_append_right _ _)
  | plan cfg env u d =>
    simp only [invNoFaults, Bool.and_eq_true] at hnf
    obtain ⟨⟨h1, h2⟩, h3⟩ := hnf
    rcases hLr : env.loginR with lm | ⟨ls, tok⟩
    · rw [hLr] at h1; simp [FetchResult.isResp] at h1
    rcases hFr : env.findR with fm | ⟨fs, data⟩
    · rw [hFr] at h2; simp [FetchResult.isResp] at h2
    rcases hOr : env.logoutR with om | ⟨os, b⟩
    · rw [hOr] at h3; simp [FetchResult.isResp] at h3
    cases hc : (falsyEnv cfg.user || falsyEnv cfg.pass) with
    | true =>
      cases hos : respOk os with
      | true =>
        simp [lastNonOk, invStatuses, planStatuses, hc, hLr, hFr, hOr,
          FetchResult.statuses, List.filter, hos] at hlast
      | false =>
        have hs : os = s := by
          simpa [lastNonOk, invStatuses, planStatuses, hc, hLr, hFr, hOr,
            FetchResult.statuses, List.filter, hos] using hlast
        subst hs
        simp only [runTool]
        rw [plan_logout_bad_dispatch cfg env u d _ b hOr hos]
        exact ⟨rfl, strContains_append_right _ _⟩
    | false =>
      cases hls : respOk ls with
      | false =>
        cases hos : respOk os with
        | false =>
          have hs : os = s := by
            simpa [lastNonOk, invStatuses, planStatuses, hc, hLr, hFr, hOr,
              FetchResult.statuses, List.filter, hls, hos] using hlast
          subst hs
          simp only [runTool]
          rw [plan_logout_bad_dispatch cfg env u d _ b hOr hos]
          exact ⟨rfl, strContains_append_right _ _⟩
        | true =>
          have hs : ls = s := by
            simpa [lastNonOk, invStatuses, planStatuses, hc, hLr, hFr, hOr,
              FetchResult.statuses, List.filter, hls, hos] using hlast
          subst hs
          simp only [runTool]
          rw [plan_logout_ok_dispatch cfg env u d _ b hOr hos,
            planTry_login_bad cfg env u d _ tok hc hLr hls]
          exact ⟨rfl, strContains_append_left _ (strContains_append_right _ _)⟩
      | true =>
        cases hfs : respOk fs with
        | false =>
          cases hos : respOk os with
          | false =>
            have hs : os = s := by
              simpa [lastNonOk, invStatuses, planStatuses, hc, hLr, hFr, hOr,
                FetchResult.statuses, List.filter, hls, hfs, hos] using hlast
            subst hs
            simp only [runTool]
            rw [plan_logout_bad_dispatch cfg env u d _ b hOr hos]
            exact ⟨rfl, strContains_append_right _ _⟩
          | true =>
            have hs : fs = s := by
              simpa [lastNonOk, invStatuses, planStatuses, hc, hLr, hFr, hOr,
                FetchResult.statuses, List.filter, hls, hfs, hos] using hlast
            subst hs
            simp only [runTool]
            rw [plan_logout_ok_dispatch cfg env u d _ b hOr hos,
              planTry_find_bad cfg env u d ls _ tok data hc hLr hls hFr hfs]
            exact ⟨rfl, strContains_append_left _ (strContains_append_right _ _)⟩
        | true =>
          cases hos : respOk os with
          | false =>
            have hs : os = s := by
              simpa [lastNonOk, invStatuses, planStatuses, hc, hLr, hFr, hOr,
                FetchResult.statuses, List.filter, hls, hfs, hos] using hlast
            subst hs
            simp only [runTool]
            rw [plan_logout_bad_dispatch cfg env u d _ b hOr hos]
            exact ⟨rfl, strContains_append_right _ _⟩
          | true =>
            simp [lastNonOk, invStatuses, planStatuses, hc, hLr, hFr, hOr,
              FetchResult.statuses, List.filter, hls, hfs, hos] at hlast

/-- C6 amended witness: a concrete `list_open_issues` invocation answered 404. -/
theorem C6_amended_witness :
    invNoFaults (Invocation.list "octo" "hello" (.resp 404 [])) = true ∧
    lastNonOk (Invocation.list "octo" "hello" (.resp 404 [])) = some 404 ∧
    ((dispatchEnvelope (runTool (Invocation.list "octo" "hello" (.resp 404 []))).1).isError =
        true ∧
      strContains (dispatchEnvelope (runTool (Invocation.list "octo" "hello"
        (.resp 404 []))).1).text (toString 404)) :=
  ⟨by decide, by decide,
    C6_amended_last_failing_status_in_message (Invocation.list "octo" "hello" (.resp 404 []))
      404 (by decide) (by decide)⟩

/-- C7: on a 2xx response with a non-empty issue array, `list_open_issues`
returns a Success envelope whose lines are the first (at most five) entries of
the upstream array, formatted in array order, and whose reported total is the
true array length, which is at least the number of lines shown. -/
theorem C7_list_truncation (owner repo : String) (st : Nat) (issues : List GitHubIssue)
    (hok : respOk st = true) (hne : issues ≠ []) :
    list_open_issues owner repo (.resp st issues) =
        (.ret ⟨false, listText owner repo issues⟩, [.ghList (listUrl owner repo)]) ∧
      ((issues.take 5).map fmtIssueLine).length ≤ 5 ∧
      issues.take 5 <+: issues ∧
      ((issues.take 5).map fmtIssueLine).length ≤ issues.length ∧
      (∃ rest, listText owner repo issues = "Found " ++ toString issues.length ++ rest) := by
  refine ⟨?_, ?_, ?_, ?_, ?_⟩
  · unfold list_open_issues
    simp [hok, List.length_eq_zero, hne]
  · simp only [List.length_map, List.length_take]
    exact Nat.min_le_left _ _
  · exact ⟨issues.drop 5, List.take_append_drop 5 issues⟩
  · simp only [List.length_map, List.length_take]
    exact Nat.min_le_right _ _
  · refine ⟨" open issues for " ++ (owner ++ ("/" ++ (repo ++ (". Show the first 5:\n\n" ++
      String.intercalate "\n" ((issues.take 5).map fmtIssueLine))))), ?_⟩
    simp [listText, strAppendAssoc]

/-- C7 witness: a concrete six-issue array, answered 200. -/
theorem C7_list_truncation_witness :
    respOk 200 = true ∧ c7Issues ≠ [] ∧
      (list_open_issues "octo" "hello" (.resp 200 c7Issues) =
          (.ret ⟨false, listText "octo" "hello" c7Issues⟩, [.ghList (listUrl "octo" "hello")]) ∧
        ((c7Issues.take 5).map fmtIssueLine).length ≤ 5 ∧
        c7Issues.take 5 <+: c7Issues ∧
        ((c7Issues.take 5).map fmtIssueLine).length ≤ c7Issues.length ∧
        (∃ rest, listText "octo" "hello" c7Issues =
          "Found " ++ toString c7Issues.length ++ rest)) :=
  ⟨by decide, by decide, C7_list_truncation "octo" "hello" 200 c7Issues (by decide) (by decide)⟩

/-- C8 counterexample: a `get_resource_plan` invocation whose find succeeds (200)
with zero records is delivered as a Failure (isError = true) when the subsequent
logout is answered 500, contradicting the claim that every zero-result invocation
returns a Success. -/
theorem C8_counterexample_empty_records_logout_failure :
    (dispatchEnvelope (get_resource_plan
        (FMConfig.mk (some "fm.example.com") (some "planDB") (some "admin") (some "secret")
          (some "plan"))
        (FMEnv.mk (.resp 200 "tokD") (.resp 200 (some [])) (.resp 500 ()))
        "dave" "this week").1).isError = true := by
  decide

/-- C8 amended: a 2xx upstream response with zero matching results yields a
Success envelope with an explicit no-results message — unconditionally for
`list_open_issues`, and for `get_resource_plan` provided the subsequent logout is
answered 2xx (a logout failure overrides the Success, per the release-failure
precedence). -/
theorem C8_amended_zero_results_success :
    (∀ (owner repo : String) (st : Nat), respOk st = true →
      list_open_issues owner repo (.resp st ([] : List GitHubIssue)) =
        (.ret ⟨false, "No open issues found for " ++ owner ++ "/" ++ repo ++ "."⟩,
          [.ghList (listUrl owner repo)])) ∧
    (∀ (cfg : FMConfig) (env : FMEnv) (u d : String) (ls fs os : Nat) (tok : String)
        (data : Option (List PlanFieldData)) (b : Unit),
      (falsyEnv cfg.user || falsyEnv cfg.pass) = false →
      env.loginR = .resp ls tok → respOk ls = true →
      env.findR = .resp fs data → respOk fs = true →
      (data = none ∨ data = some []) →
      env.logoutR = .resp os b → respOk os = true →
      dispatchEnvelope (get_resource_plan cfg env u d).1 = ⟨false, noPlanText u d⟩) := by
  constructor
  · intro owner repo st hok
    unfold list_open_issues
    simp [hok]
  · intro cfg env u d ls fs os tok data b hc hl hlok hf hfok hdata ho hook
    rw [plan_logout_ok_dispatch cfg env u d os b ho hook]
    rcases hdata with h | h <;> subst h <;> simp [planTry, hc, hl, hlok, hf, hfok]

/-- C8 amended witness: a concrete empty issue list and a concrete zero-record
resource-plan run with a 2xx logout. -/
theorem C8_amended_zero_results_success_witness :
    respOk 200 = true ∧
    (list_open_issues "octo" "hello" (.resp 200 ([] : List GitHubIssue)) =
        (.ret ⟨false, "No open issues found for " ++ "octo" ++ "/" ++ "hello" ++ "."⟩,
          [.ghList (listUrl "octo" "hello")])) ∧
    dispatchEnvelope (get_resource_plan
        (FMConfig.mk (some "fm.example.com") (some "planDB") (some "admin") (some "secret")
          (some "plan"))
        (FMEnv.mk (.resp 200 "tokE") (.resp 200 (some [])) (.resp 200 ()))
        "gil" "this week").1 = ⟨false, noPlanText "gil" "this week"⟩ :=
  ⟨by decide,
    C8_amended_zero_results_success.1 "octo" "hello" 200 (by decide),
    C8_amended_zero_results_success.2
      (FMConfig.mk (some "fm.example.com") (some "planDB") (some "admin") (some "secret")
        (some "plan"))
      (FMEnv.mk (.resp 200 "tokE") (.resp 200 (some [])) (.resp 200 ()))
      "gil" "this week" 200 200 200 "tokE" (some []) ()
      (by decide) rfl (by decide) rfl (by decide) (Or.inr rfl) rfl (by decide)⟩

/-- C9: `get_issue_details` is deterministic in its arguments and the upstream
payload — two invocations with identical arguments that receive identical
upstream responses produce identical results, in particular byte-identical
formatted texts. -/
theorem C9_details_deterministic (owner owner2 repo repo2 : String) (n n2 : Int)
    (r r2 : FetchResult GitHubIssue)
    (ho : owner = owner2) (hr : repo = repo2) (hn : n = n2) (hresp : r = r2) :
    get_issue_details owner repo n r = get_issue_details owner2 repo2 n2 r2 := by
  subst ho
  subst hr
  subst hn
  subst hresp
  rfl

/-- C9 witness: two identically-parameterised invocations on a concrete issue. -/
theorem C9_details_deterministic_witness :
    ("octo" : String) = "octo" ∧ ("hello" : String) = "hello" ∧ (7 : Int) = 7 ∧
    (FetchResult.resp 200 (GitHubIssue.mk 7 "Title" "ann" "url7" none) :
        FetchResult GitHubIssue) =
      .resp 200 (GitHubIssue.mk 7 "Title" "ann" "url7" none) ∧
    get_issue_details "octo" "hello" 7 (.resp 200 (GitHubIssue.mk 7 "Title" "ann" "url7" none)) =
      get_issue_details "octo" "hello" 7
        (.resp 200 (GitHubIssue.mk 7 "Title" "ann" "url7" none)) :=
  ⟨rfl, rfl, rfl, rfl,
    C9_details_deterministic "octo" "octo" "hello" "hello" 7 7
      (.resp 200 (GitHubIssue.mk 7 "Title" "ann" "url7" none))
      (.resp 200 (GitHubIssue.mk 7 "Title" "ann" "url7" none)) rfl rfl rfl rfl⟩

/-- C10: a `get_resource_plan` invocation that is delivered as a Success with at
least one record returns a text that discloses the acquired session token
verbatim: the text begins with a fixed prefix followed by the token. -/
theorem C10_token_disclosed (cfg : FMConfig) (env : FMEnv) (u d : String)
    (ls fs os : Nat) (tok : String) (r0 : PlanFieldData) (rs : List PlanFieldData) (b : Unit)
    (hc : (falsyEnv cfg.user || falsyEnv cfg.pass) = false)
    (hl : env.loginR = .resp ls tok) (hlok : respOk ls = true)
    (hf : env.findR = .resp fs (some (r0 :: rs))) (hfok : respOk fs = true)
    (ho : env.logoutR = .resp os b) (hook : respOk os = true) :
    (dispatchEnvelope (get_resource_plan cfg env u d).1).isError = false ∧
      ∃ rest, (dispatchEnvelope (get_resource_plan cfg env u d).1).text =
        "Successfully logged into FileMaker! Session Token: " ++ (tok ++ rest) := by
  rw [plan_logout_ok_dispatch cfg env u d os b ho hook]
  have hpt : (planTry cfg env u d).1 = ⟨false, planSuccessText tok u d (r0 :: rs)⟩ := by
    simp [planTry, hc, hl, hlok, hf, hfok]
  rw [hpt]
  refine ⟨rfl, ⟨"\n\nResource plan for " ++ u ++ " for " ++ d ++ ":\n\n" ++
    String.intercalate "\n" ((r0 :: rs).map planLine), ?_⟩⟩
  simp [planSuccessText, strAppendAssoc]

/-- C10 witness: a concrete successful run with one record; the delivered text
starts with the token disclosure prefix followed by the session token. -/
theorem C10_token_disclosed_witness :
    (falsyEnv (some "admin") || falsyEnv (some "secret")) = false ∧
    respOk 200 = true ∧
    ((dispatchEnvelope (get_resource_plan
        (FMConfig.mk (some "fm.example.com") (some "planDB") (some "admin") (some "secret")
          (some "plan"))
        (FMEnv.mk (.resp 200 "tokSecret")
          (.resp 200 (some [PlanFieldData.mk (some 8) (some 5) (some 3)])) (.resp 200 ()))
        "hana" "this week").1).isError = false ∧
      ∃ rest, (dispatchEnvelope (get_resource_plan
        (FMConfig.mk (some "fm.example.com") (some "planDB") (some "admin") (some "secret")
          (some "plan"))
        (FMEnv.mk (.resp 200 "tokSecret")
          (.resp 200 (some [PlanFieldData.mk (some 8) (some 5) (some 3)])) (.resp 200 ()))
        "hana" "this week").1).text =
        "Successfully logged into FileMaker! Session Token: " ++ ("tokSecret" ++ rest)) :=
  ⟨by decide, by decide,
    C10_token_disclosed
      (FMConfig.mk (some "fm.example.com") (some "planDB") (some "admin") (some "secret")
        (some "plan"))
      (FMEnv.mk (.resp 200 "tokSecret")
        (.resp 200 (some [PlanFieldData.mk (some 8) (some 5) (some 3)])) (.resp 200 ()))
      "hana" "this week" 200 200 200 "tokSecret" (PlanFieldData.mk (some 8) (some 5) (some 3))
      [] () (by decide) rfl (by decide) rfl (by decide) rfl (by decide)⟩

end MCPServer
